import Mathlib

/-!
Verification of the praxis router/manifest code (denmat/praxis).

Shallow embedding of `manifest/service.go` (the `manifest` package) and the
router source (package `router`: `Proxy`, `Endpoint`, the TCP/HTTP/WebSocket
forwarding paths).  Pure decision logic is translated function by function;
external collaborators (the operating system's network, the rack client,
certificate issuance) are represented by explicit parameters recording whether
they succeed, and their side effects are recorded as explicit action values so
that theorems can speak about "what was dialed / closed / tunneled".
-/

set_option autoImplicit false

deriving instance DecidableEq for Except

namespace Praxis

/-! ### URLs

Go `net/url.URL`, restricted to the fields the router reads: `Scheme`,
`Host` (which is `host` or `host:port`), and `Path`.  `hostname` and `port`
mirror `URL.Hostname()` / `URL.Port()` for hosts without IPv6 brackets, the
only host shapes occurring in this repository. -/

structure URL where
  scheme : String
  host : String
  path : String
  deriving Repr, DecidableEq

/-- Go `strings.Split` with a one-character separator, over the character
list: splitting the empty string yields `[""]`, every separator occurrence
opens a new field. -/
def splitChars (sep : Char) : List Char → List (List Char)
  | [] => [[]]
  | c :: cs =>
    if c = sep then [] :: splitChars sep cs
    else
      match splitChars sep cs with
      | [] => [[c]]
      | g :: gs => (c :: g) :: gs

def goSplit (s : String) (sep : Char) : List String :=
  (splitChars sep s.data).map String.mk

def URL.hostname (u : URL) : String :=
  match goSplit u.host ':' with
  | [] => u.host
  | h :: _ => h

def URL.port (u : URL) : String :=
  match goSplit u.host ':' with
  | [_, p] => p
  | _ => ""

/-- `url.URL.String()` for the URL shapes used here (scheme, host, path;
no user, query or fragment): `scheme://host` followed by the path. -/
def URL.render (u : URL) : String :=
  u.scheme ++ "://" ++ u.host ++ u.path

/-- `strconv.Atoi` on unsigned input: succeeds exactly on nonempty
all-digit strings (the shapes produced by `URL.Port()` and port tokens;
Atoi's optional sign never occurs there). -/
def atoi (s : String) : Option Nat :=
  if s.data ≠ [] ∧ s.data.all Char.isDigit then
    some (s.data.foldl (fun n c => n * 10 + (c.toNat - 48)) 0)
  else
    none

/-! ### Endpoint and Proxy registration (`Endpoint.NewProxy`) -/

structure ProxyR where
  listen : URL
  target : URL
  deriving Repr, DecidableEq

/-- `Endpoint`: a hostname and the port-keyed proxy map (`e.Proxies`,
a Go `map[int]Proxy`, modelled as an association list queried with
`List.lookup`). -/
structure Endpoint where
  host : String
  proxies : List (Nat × ProxyR)
  deriving Repr, DecidableEq

inductive NewProxyError where
  | portParse (s : String)
  | portConflict (port : Nat)
  deriving Repr, DecidableEq

/-- `Endpoint.NewProxy`: parse the listen port, reject an occupied port with
the "proxy already exists for port" error, otherwise register the proxy
under that port and return it. -/
def Endpoint.newProxy (e : Endpoint) (listen target : URL) :
    Except NewProxyError (ProxyR × Endpoint) :=
  let p : ProxyR := { listen := listen, target := target }
  match atoi listen.port with
  | none => .error (.portParse listen.port)
  | some pi =>
    match e.proxies.lookup pi with
    | some _ => .error (.portConflict pi)
    | none => .ok (p, { e with proxies := (pi, p) :: e.proxies })

/-! ### `Proxy.Serve` scheme dispatch

`Serve` first TLS-wraps the bound listener when the listen scheme is `https`
or `tls` (after obtaining a certificate from the endpoint's router), then
dispatches on the scheme a second time: `http`/`https` serve the HTTP
handler, `tcp` runs the TCP accept loop, and every other scheme — including
`tls`, absent from the second switch — returns the
"unknown listener scheme" error. -/

inductive ServeOutcome where
  | certError
  | serveHTTP
  | serveTCP
  | unknownScheme (s : String)
  deriving Repr, DecidableEq

structure ServeDispatch where
  tlsWrapped : Bool
  outcome : ServeOutcome
  deriving Repr, DecidableEq

/-- The control flow of `Proxy.Serve` after the listener is bound.  `certOk`
records whether `generateCertificate` succeeds (only consulted for the
`https`/`tls` wrap). -/
def serveDispatch (certOk : Bool) (scheme : String) : ServeDispatch :=
  if (scheme == "https" || scheme == "tls") && !certOk then
    { tlsWrapped := false, outcome := .certError }
  else
    { tlsWrapped := scheme == "https" || scheme == "tls"
      outcome :=
        match scheme with
        | "http" => .serveHTTP
        | "https" => .serveHTTP
        | "tcp" => .serveTCP
        | s => .unknownScheme s }

/-! ### TCP forwarding (`proxyTCP`, `proxyTCPConnection`, `proxyRackTCP`)

Per-connection behaviour is modelled as a result plus a list of the
externally visible actions the connection handler performs.  The rack client
(`rack.NewFromEnv`) is a parameter recording whether it can be constructed;
its tunnel calls and the byte streaming are recorded as actions (their own
I/O outcomes are outside the decision logic the claims are about). -/

inductive RouteError where
  | invalidRackEndpoint (target : String)
  | invalidKindEndpoint (kind : String)
  | atoiError (s : String)
  | unknownProxyType (kind : String)
  | rackEnvError (msg : String)
  deriving Repr, DecidableEq

inductive TCPAction where
  | dial (hostport : String)
  | pipe
  | resourceProxy (app resource : String)
  | stream
  | closeOther
  | closeConn
  deriving Repr, DecidableEq

structure TCPRun where
  result : Except RouteError Unit
  actions : List TCPAction
  deriving Repr, DecidableEq

/-- `proxyRackTCP(cn, target)`: split the target path on `/` (fewer than 4
parts is "invalid rack endpoint"), split the 4th part on `:` (fewer than 2
tokens is "invalid KIND endpoint" — the Go format string prints `parts[2]`,
i.e. the kind, as both arguments), construct the rack client, then switch on
the kind: `resource` opens a resource proxy and streams, anything else is
"unknown proxy type".  `defer cn.Close()` closes the accepted connection on
every path. -/
def proxyRackTCP (rackEnv : Except String Unit) (target : URL) : TCPRun :=
  let parts := goSplit target.path '/'
  if parts.length < 4 then
    ⟨.error (.invalidRackEndpoint target.render), [.closeConn]⟩
  else
    let app := parts.getD 1 ""
    let kind := parts.getD 2 ""
    let rp := goSplit (parts.getD 3 "") ':'
    if rp.length < 2 then
      ⟨.error (.invalidKindEndpoint kind), [.closeConn]⟩
    else
      let resource := rp.getD 0 ""
      match rackEnv with
      | .error e => ⟨.error (.rackEnvError e), [.closeConn]⟩
      | .ok _ =>
        match kind with
        | "resource" => ⟨.ok (), [.resourceProxy app resource, .stream, .closeConn]⟩
        | _ => ⟨.error (.unknownProxyType kind), [.closeConn]⟩

/-- `proxyTCPConnection(cn, target)`: rack-marked targets go through
`proxyRackTCP`; any other target is dialed literally (`net.Dial("tcp",
target.Host)`) and pumped with `helpers.Pipe`, with both connections closed
by the deferred `Close`es (run in LIFO order). -/
def proxyTCPConnection (rackEnv : Except String Unit) (target : URL) : TCPRun :=
  if target.hostname = "rack" then
    proxyRackTCP rackEnv target
  else
    ⟨.ok (), [.dial target.host, .pipe, .closeOther, .closeConn]⟩

/-- The handler `proxyTCP` actually spawns for each accepted connection:
the accept loop's body is `go proxyRackTCP(cn, target)` — it is
`proxyRackTCP`, not `proxyTCPConnection`, for every target. -/
def proxyTCPPerConnection (rackEnv : Except String Unit) (target : URL) : TCPRun :=
  proxyRackTCP rackEnv target

/-! ### HTTP rack forwarding (`Proxy.proxyRackHTTP`) -/

structure HTTPHandler where
  app : String
  service : String
  port : Nat
  deriving Repr, DecidableEq

/-- `Proxy.proxyRackHTTP`: the same path parse as the TCP side (with a
bare "invalid rack endpoint" message), then `strconv.Atoi` on the port
token, then the kind switch: `service` builds the reverse-proxy handler
over `serviceTransport`, anything else is "unknown proxy type".  Note the
`Atoi` runs before the kind switch. -/
def proxyRackHTTPBuild (targetPath : String) : Except RouteError HTTPHandler :=
  let parts := goSplit targetPath '/'
  if parts.length < 4 then
    .error (.invalidRackEndpoint "")
  else
    let app := parts.getD 1 ""
    let kind := parts.getD 2 ""
    let sp := goSplit (parts.getD 3 "") ':'
    if sp.length < 2 then
      .error (.invalidKindEndpoint kind)
    else
      let service := sp.getD 0 ""
      match atoi (sp.getD 1 "") with
      | none => .error (.atoiError (sp.getD 1 ""))
      | some pi =>
        match kind with
        | "service" => .ok ⟨app, service, pi⟩
        | _ => .error (.unknownProxyType kind)

/-! ### Backend resolution for services (`serviceTransport` dial, `ws` NetDial)

`rnd` stands for the value `mrand.Intn(len(pss))` returned; `Intn`'s
contract is a uniform value in `[0, len)`, and the `% length` below is the
identity on that range (it only makes the embedding total). -/

structure ProcessInfo where
  id : String
  deriving Repr, DecidableEq

inductive DialError where
  | rackEnvError (msg : String)
  | processListError (msg : String)
  | noProcessesAvailable (service : String)
  deriving Repr, DecidableEq

/-- The outcome of one dial: the chosen process id on success, and the list
of `(processId, port)` tunnels spawned via `go serviceProxy(...)`. -/
structure DialOut where
  result : Except DialError String
  tunnelsOpened : List (String × Nat)
  deriving Repr, DecidableEq

/-- The `DialContext` closure installed by `serviceTransport(app, service,
port)`: construct the rack client, list the service's processes, fail with
"no processes available" on an empty list (no tunnel is opened), otherwise
pick `pss[mrand.Intn(len(pss))]` and spawn exactly one `serviceProxy`
tunnel to it. -/
def serviceTransportDial (rackEnv : Except String Unit)
    (plist : Except String (List ProcessInfo)) (service : String) (port : Nat)
    (rnd : Nat) : DialOut :=
  match rackEnv with
  | .error e => ⟨.error (.rackEnvError e), []⟩
  | .ok _ =>
    match plist with
    | .error e => ⟨.error (.processListError e), []⟩
    | .ok pss =>
      if h : pss.length < 1 then
        ⟨.error (.noProcessesAvailable service), []⟩
      else
        let ps := pss.get ⟨rnd % pss.length, Nat.mod_lt _ (by omega)⟩
        ⟨.ok ps.id, [(ps.id, port)]⟩

/-- The `NetDial` closure installed by `Proxy.ws(app, service, port)`:
the same construction, process listing, empty-list failure, random pick and
single `serviceProxy` spawn (the extra `nopDeadlineConn` wrapper has no
bearing on selection). -/
def wsNetDial (rackEnv : Except String Unit)
    (plist : Except String (List ProcessInfo)) (service : String) (port : Nat)
    (rnd : Nat) : DialOut :=
  match rackEnv with
  | .error e => ⟨.error (.rackEnvError e), []⟩
  | .ok _ =>
    match plist with
    | .error e => ⟨.error (.processListError e), []⟩
    | .ok pss =>
      if h : pss.length < 1 then
        ⟨.error (.noProcessesAvailable service), []⟩
      else
        let ps := pss.get ⟨rnd % pss.length, Nat.mod_lt _ (by omega)⟩
        ⟨.ok ps.id, [(ps.id, port)]⟩

/-! ### WebSocket handshake headers (`Proxy.ws`)

Go HTTP headers are byte strings; keys are canonicalized by
`textproto.CanonicalMIMEHeaderKey` both when the server parses the inbound
request and inside `http.Header.Add`.  Keys and values are modelled as
`List Nat` (byte lists); `hbytes` injects the ASCII literals appearing in
the source. -/

def hbytes (s : String) : List Nat :=
  s.data.map Char.toNat

def byteIsUpper (b : Nat) : Bool :=
  65 ≤ b && b ≤ 90

def byteIsLower (b : Nat) : Bool :=
  97 ≤ b && b ≤ 122

def byteToLower (b : Nat) : Nat :=
  if byteIsUpper b then b + 32 else b

/-- `validHeaderFieldByte`: letters, digits, and the token punctuation
set of RFC 7230 (codes for `! # $ % & ' * + - . ^ _ | ~` and backquote). -/
def validHeaderByte (b : Nat) : Bool :=
  byteIsUpper b || byteIsLower b || (48 ≤ b && b ≤ 57) ||
    b == 33 || b == 35 || b == 36 || b == 37 || b == 38 || b == 39 || b == 42 ||
    b == 43 || b == 45 || b == 46 || b == 94 || b == 95 || b == 96 || b == 124 || b == 126

/-- One step of `canonicalMIMEHeaderKey`: uppercase a letter at the start of
a word, lowercase it elsewhere. -/
def canonByte (upper : Bool) (b : Nat) : Nat :=
  if upper && byteIsLower b then b - 32
  else if !upper && byteIsUpper b then b + 32
  else b

/-- The canonicalization loop: after writing each byte, the next byte starts
a word exactly when the written byte is a dash (code 45). -/
def canonAux : Bool → List Nat → List Nat
  | _, [] => []
  | u, b :: bs =>
    let c := canonByte u b
    c :: canonAux (c == 45) bs

/-- `textproto.CanonicalMIMEHeaderKey`: keys with any invalid byte are
returned unchanged; valid keys are canonicalized word by word. -/
def canonicalHeaderKey (k : List Nat) : List Nat :=
  if k.all validHeaderByte then canonAux true k else k

def lowerKey (k : List Nat) : List Nat :=
  k.map byteToLower

/-- The six header keys `Proxy.ws` skips, exactly as the source spells them
(these are the canonical MIME forms the parsed request map uses). -/
def wsSkipKeys : List (List Nat) :=
  [hbytes "Upgrade", hbytes "Connection", hbytes "Sec-Websocket-Key",
   hbytes "Sec-Websocket-Version", hbytes "Sec-Websocket-Extensions",
   hbytes "Sec-Websocket-Protocol"]

def skipKey (k : List Nat) : Bool :=
  wsSkipKeys.contains k

/-- The outbound handshake headers built by `Proxy.ws`: the three
`X-Forwarded-*` headers first, then every inbound header whose
(canonical) key is not one of the six skipped keys.  `inbound` carries the
raw keys as the client sent them; the server's parse canonicalizes each key
before the handler's loop sees it (`Header.Add` canonicalizes once more,
idempotently).  Go map iteration order is arbitrary; the claims do not
depend on the order, and the inbound list order is kept. -/
def wsOutboundHeaders (remoteAddr port proto : List Nat)
    (inbound : List (List Nat × List Nat)) : List (List Nat × List Nat) :=
  [(hbytes "X-Forwarded-For", remoteAddr),
   (hbytes "X-Forwarded-Port", port),
   (hbytes "X-Forwarded-Proto", proto)]
  ++ (inbound.map (fun kv => (canonicalHeaderKey kv.1, kv.2))).filter
      (fun kv => !skipKey kv.1)

/-- The six negotiation header names in the spelling the claim uses
(`WebSocket` with a capital S); comparison with the code's spelling is
case-insensitive via `lowerKey`. -/
def wsClaimNegotiationNames : List (List Nat) :=
  [hbytes "Upgrade", hbytes "Connection", hbytes "Sec-WebSocket-Key",
   hbytes "Sec-WebSocket-Version", hbytes "Sec-WebSocket-Extensions",
   hbytes "Sec-WebSocket-Protocol"]

/-! ### The duplex pump exit paths (`Proxy.ws` tail, `helpers.Pipe`)

The observable events of a bridge, in program order.  `copyDone dir`
is one copy goroutine finishing (`dir = true` for frontend→backend);
`recvFirst` is the single `<-errc` receive; `closeA`/`closeB` are `Close`
calls on the two bridged connections. -/

inductive PumpEvent where
  | spawnCopy (dir : Bool)
  | copyDone (dir : Bool)
  | recvFirst
  | logError (msg : String)
  | returnCall
  | closeA
  | closeB
  deriving Repr, DecidableEq

/-- The tail of `Proxy.ws` after a successful upgrade and dial: spawn the
two copy goroutines, receive the FIRST copy result from `errc`, log it when
it is an error, and return.  The handler contains no `Close` call on either
the frontend or the backend connection. -/
def wsBridgeTail (firstDir : Bool) (firstErr : Option String) : List PumpEvent :=
  [.spawnCopy true, .spawnCopy false, .copyDone firstDir, .recvFirst]
  ++ (match firstErr with
      | some e => [.logError e]
      | none => [])
  ++ [.returnCall]

/-- Modelled from the spec: `helpers.Pipe` (package `helpers`, not under
`src/`).  Per §4.3 the pump spawns both copy directions and returns as soon
as the first finishes; connection closure on the TCP path is provided by
`proxyTCPConnection`'s deferred `Close`es, which run after the pump
returns. -/
def helpersPipe (firstDir : Bool) : List PumpEvent :=
  [.spawnCopy true, .spawnCopy false, .copyDone firstDir, .returnCall]

/-- `proxyTCPConnection`'s direct-dial path as a pump-event trace: dial,
run the pump, then the deferred closes release the dialed connection and
the accepted connection (LIFO) before the call returns. -/
def tcpConnectionTrace (firstDir : Bool) : List PumpEvent :=
  helpersPipe firstDir ++ [.closeB, .closeA]

/-! ### JSON marshaling (`Proxy.MarshalJSON`)

`Proxy.MarshalJSON` marshals `map[string]string{"listen": ..., "target":
...}`; `encoding/json` renders map keys in sorted order and escapes string
contents (with HTML escaping of `<`, `>`, `&` on by default). -/

def hexDigitChar (n : Nat) : Char :=
  if n < 10 then Char.ofNat (48 + n) else Char.ofNat (87 + n)

def hexByteStr (n : Nat) : String :=
  String.singleton (hexDigitChar (n / 16 % 16)) ++ String.singleton (hexDigitChar (n % 16))

/-- `encoding/json` escaping of one character inside a string literal. -/
def jsonEscapeChar (c : Char) : String :=
  if c = '"' then "\\\""
  else if c = '\\' then "\\\\"
  else if c = '<' then "\\u003c"
  else if c = '>' then "\\u003e"
  else if c = '&' then "\\u0026"
  else if c = '\n' then "\\n"
  else if c = '\r' then "\\r"
  else if c = '\t' then "\\t"
  else if c.toNat < 32 then "\\u00" ++ hexByteStr c.toNat
  else String.singleton c

def jsonString (s : String) : String :=
  "\"" ++ String.join (s.data.map jsonEscapeChar) ++ "\""

/-- Byte-wise lexicographic order, the order `encoding/json` sorts map keys
in (`sort.Strings` on UTF-8 byte strings; the keys here are ASCII). -/
def listLE : List Nat → List Nat → Bool
  | [], _ => true
  | _ :: _, [] => false
  | a :: as, b :: bs => if a < b then true else if b < a then false else listLE as bs

def keyLE (a b : String) : Bool :=
  listLE (a.data.map Char.toNat) (b.data.map Char.toNat)

def insertByKey (kv : String × String) :
    List (String × String) → List (String × String)
  | [] => [kv]
  | x :: xs => if keyLE kv.1 x.1 then kv :: x :: xs else x :: insertByKey kv xs

/-- `encoding/json` sorts a map's keys before rendering. -/
def sortByKey (l : List (String × String)) : List (String × String) :=
  l.foldr insertByKey []

/-- The comma-separated `"key":"value"` members of a JSON object. -/
def renderPairs : List (String × String) → String
  | [] => ""
  | [kv] => jsonString kv.1 ++ ":" ++ jsonString kv.2
  | kv :: rest => jsonString kv.1 ++ ":" ++ jsonString kv.2 ++ "," ++ renderPairs rest

def jsonObject (kvs : List (String × String)) : String :=
  "\x7b" ++ renderPairs (sortByKey kvs) ++ "\x7d"

/-- `Proxy.MarshalJSON`: the two-key string map of the rendered listen and
target URLs. -/
def ProxyR.marshalJSON (p : ProxyR) : String :=
  jsonObject [("listen", p.listen.render), ("target", p.target.render)]

/-! ### `Service.BuildHash` (package `manifest`)

`BuildHash` is the lowercase hex SHA-1 of
`fmt.Sprintf("build[path=%q, args=%v] image=%q", s.Build.Path,
s.Build.Args, s.Image)`.  SHA-1 is implemented below over byte lists with
explicit `% 2^32` arithmetic; `%q` is `strconv.Quote` (modelled for the
printable-ASCII and common-escape range) and `%v` on a string slice is the
bracketed space-separated list. -/

def u32 (n : Nat) : Nat :=
  n % 4294967296

def rotl32 (x s : Nat) : Nat :=
  u32 (Nat.lor (u32 (x <<< s)) (x >>> (32 - s)))

def sha1K (i : Nat) : Nat :=
  if i < 20 then 0x5A827999
  else if i < 40 then 0x6ED9EBA1
  else if i < 60 then 0x8F1BBCDC
  else 0xCA62C1D6

def sha1F (i b c d : Nat) : Nat :=
  if i < 20 then Nat.lor (Nat.land b c) (Nat.land (u32 (Nat.xor b 4294967295)) d)
  else if i < 40 then Nat.xor (Nat.xor b c) d
  else if i < 60 then Nat.lor (Nat.lor (Nat.land b c) (Nat.land b d)) (Nat.land c d)
  else Nat.xor (Nat.xor b c) d

def sha1Schedule (block : List Nat) : Array Nat := Id.run do
  let mut w : Array Nat := (block.take 16).toArray
  for i in [16:80] do
    w := w.push (rotl32 (Nat.xor (Nat.xor w[i-3]! w[i-8]!) (Nat.xor w[i-14]! w[i-16]!)) 1)
  return w

structure SHA1State where
  h0 : Nat
  h1 : Nat
  h2 : Nat
  h3 : Nat
  h4 : Nat
  deriving Repr, DecidableEq

def sha1Init : SHA1State :=
  ⟨0x67452301, 0xEFCDAB89, 0x98BADCFE, 0x10325476, 0xC3D2E1F0⟩

def sha1Block (st : SHA1State) (block : List Nat) : SHA1State := Id.run do
  let w := sha1Schedule block
  let mut a := st.h0
  let mut b := st.h1
  let mut c := st.h2
  let mut d := st.h3
  let mut e := st.h4
  for i in [0:80] do
    let t := u32 (rotl32 a 5 + sha1F i b c d + e + sha1K i + w[i]!)
    e := d
    d := c
    c := rotl32 b 30
    b := a
    a := t
  return ⟨u32 (st.h0 + a), u32 (st.h1 + b), u32 (st.h2 + c), u32 (st.h3 + d), u32 (st.h4 + e)⟩

def be64 (n : Nat) : List Nat :=
  [n >>> 56, n >>> 48, n >>> 40, n >>> 32, n >>> 24, n >>> 16, n >>> 8, n].map (· % 256)

def be32 (n : Nat) : List Nat :=
  [n >>> 24, n >>> 16, n >>> 8, n].map (· % 256)

def sha1Pad (msg : List Nat) : List Nat :=
  let z := (64 + 56 - ((msg.length + 1) % 64)) % 64
  msg ++ [128] ++ List.replicate z 0 ++ be64 (msg.length * 8)

def bytesToWords : List Nat → List Nat
  | a :: b :: c :: d :: rest => (((a * 256 + b) * 256 + c) * 256 + d) :: bytesToWords rest
  | _ => []

def chunks64 : List Nat → List (List Nat)
  | [] => []
  | x :: xs => (x :: xs).take 64 :: chunks64 ((x :: xs).drop 64)
  termination_by l => l.length
  decreasing_by simp [List.length_drop]; omega

def sha1Bytes (msg : List Nat) : List Nat :=
  let fin := (chunks64 (sha1Pad msg)).foldl (fun st b => sha1Block st (bytesToWords b)) sha1Init
  be32 fin.h0 ++ be32 fin.h1 ++ be32 fin.h2 ++ be32 fin.h3 ++ be32 fin.h4

def strBytes (s : String) : List Nat :=
  s.toUTF8.toList.map UInt8.toNat

/-- `fmt.Sprintf("%x", sha1.Sum(...))`: lowercase hex of the 20 digest
bytes. -/
def sha1Hex (s : String) : String :=
  String.join ((sha1Bytes (strBytes s)).map hexByteStr)

/-- `strconv.Quote` of one character (`%q`), for the printable-ASCII and
common-escape range used by build paths and image names. -/
def goQuoteChar (c : Char) : String :=
  if c = '"' then "\\\""
  else if c = '\\' then "\\\\"
  else if c = '\n' then "\\n"
  else if c = '\t' then "\\t"
  else if c = '\r' then "\\r"
  else if 32 ≤ c.toNat && c.toNat < 127 then String.singleton c
  else "\\x" ++ hexByteStr (c.toNat % 256)

def goQuote (s : String) : String :=
  "\"" ++ String.join (s.data.map goQuoteChar) ++ "\""

/-- `fmt` `%v` of a `[]string`: the elements space-separated in brackets. -/
def goSliceV (xs : List String) : String :=
  "[" ++ String.intercalate " " xs ++ "]"

structure ServiceBuild where
  args : List String
  path : String
  deriving Repr, DecidableEq

structure Service where
  name : String
  build : ServiceBuild
  environment : List String
  image : String
  test : String
  deriving Repr, DecidableEq

/-- The formatted string `BuildHash` hashes. -/
def Service.buildString (s : Service) : String :=
  "build[path=" ++ goQuote s.build.path ++ ", args=" ++ goSliceV s.build.args ++
    "] image=" ++ goQuote s.image

def Service.buildHash (s : Service) : String :=
  sha1Hex s.buildString

/-! ## Theorems -/

/-- Helper: a key absent from an association-list lookup is absent from the
key list. -/
theorem lookup_none_not_mem_keys {l : List (Nat × ProxyR)} {k : Nat}
    (h : l.lookup k = none) : k ∉ l.map Prod.fst := by
  induction l with
  | nil => simp
  | cons x xs ih =>
    simp only [List.lookup] at h
    rcases hk : (k == x.1) with _ | _
    · rw [hk] at h
      simp only [List.map, List.mem_cons]
      rintro (rfl | hm)
      · simp at hk
      · exact ih h hm
    · rw [hk] at h
      exact absurd h (by simp)

/-- Canonicalization only changes letter case. -/
theorem byteToLower_canonByte (u : Bool) (b : Nat) :
    byteToLower (canonByte u b) = byteToLower b := by
  simp only [canonByte, byteToLower, byteIsUpper, byteIsLower]
  split_ifs <;> simp_all [Bool.and_eq_true, decide_eq_true_eq] <;> omega

/-- Two bytes agreeing after lowering are equal or an upper/lower pair. -/
theorem lower_eq_cases {a b : Nat} (h : byteToLower a = byteToLower b) :
    a = b ∨ (65 ≤ a ∧ a ≤ 90 ∧ b = a + 32) ∨ (65 ≤ b ∧ b ≤ 90 ∧ a = b + 32) := by
  simp only [byteToLower, byteIsUpper, Bool.and_eq_true, decide_eq_true_eq] at h
  split_ifs at h <;> omega

/-- `canonByte` is determined by the byte's lowercase class. -/
theorem canonByte_congr (u : Bool) {a b : Nat} (h : byteToLower a = byteToLower b) :
    canonByte u a = canonByte u b := by
  rcases lower_eq_cases h with rfl | ⟨h1, h2, rfl⟩ | ⟨h1, h2, rfl⟩
  · rfl
  · simp only [canonByte, byteIsUpper, byteIsLower]
    cases u <;> split_ifs <;> simp_all [Bool.and_eq_true, decide_eq_true_eq] <;> omega
  · simp only [canonByte, byteIsUpper, byteIsLower]
    cases u <;> split_ifs <;> simp_all [Bool.and_eq_true, decide_eq_true_eq] <;> omega

/-- `canonAux` is determined by the key's lowercase form. -/
theorem canonAux_congr : ∀ (as bs : List Nat), as.map byteToLower = bs.map byteToLower →
    ∀ u, canonAux u as = canonAux u bs := by
  intro as
  induction as with
  | nil => intro bs h u; cases bs <;> simp_all [canonAux]
  | cons a as ih =>
    intro bs h u
    cases bs with
    | nil => simp at h
    | cons b bs =>
      simp only [List.map, List.cons.injEq] at h
      obtain ⟨h1, h2⟩ := h
      simp only [canonAux]
      rw [canonByte_congr u h1, ih bs h2]

/-- Canonicalizing does not change the lowercase form. -/
theorem lowerKey_canonAux (u : Bool) (as : List Nat) :
    (canonAux u as).map byteToLower = as.map byteToLower := by
  induction as generalizing u with
  | nil => rfl
  | cons a as ih => simp only [canonAux, List.map, byteToLower_canonByte, ih]

/-- Token validity is determined by the byte's lowercase class. -/
theorem validHeaderByte_congr {a b : Nat} (h : byteToLower a = byteToLower b) :
    validHeaderByte a = validHeaderByte b := by
  rcases lower_eq_cases h with rfl | ⟨h1, h2, rfl⟩ | ⟨h1, h2, rfl⟩
  · rfl
  · rw [Bool.eq_iff_iff]
    simp only [validHeaderByte, byteIsUpper, byteIsLower, Bool.or_eq_true,
      Bool.and_eq_true, decide_eq_true_eq, beq_iff_eq]
    omega
  · rw [Bool.eq_iff_iff]
    simp only [validHeaderByte, byteIsUpper, byteIsLower, Bool.or_eq_true,
      Bool.and_eq_true, decide_eq_true_eq, beq_iff_eq]
    omega

/-- Key validity is determined by the key's lowercase form. -/
theorem all_valid_congr : ∀ (as bs : List Nat), as.map byteToLower = bs.map byteToLower →
    as.all validHeaderByte = bs.all validHeaderByte := by
  intro as
  induction as with
  | nil => intro bs h; cases bs <;> simp_all
  | cons a as ih =>
    intro bs h
    cases bs with
    | nil => simp at h
    | cons b bs =>
      simp only [List.map, List.cons.injEq] at h
      obtain ⟨h1, h2⟩ := h
      simp only [List.all_cons, validHeaderByte_congr h1, ih bs h2]

/-- `CanonicalMIMEHeaderKey` preserves the lowercase form of a key. -/
theorem lowerKey_canonicalHeaderKey (k : List Nat) :
    lowerKey (canonicalHeaderKey k) = lowerKey k := by
  unfold canonicalHeaderKey lowerKey
  split_ifs
  · exact lowerKey_canonAux true k
  · rfl

/-- Two valid keys equal up to case have the same canonical form. -/
theorem canonicalHeaderKey_congr {a b : List Nat} (h : lowerKey a = lowerKey b)
    (hv : a.all validHeaderByte = true) :
    canonicalHeaderKey a = canonicalHeaderKey b := by
  unfold lowerKey at h
  have hvb : b.all validHeaderByte = true := (all_valid_congr a b h).symm.trans hv
  unfold canonicalHeaderKey
  rw [hv, hvb]
  simp only [if_true]
  exact canonAux_congr a b h true

/-- C1: the claim says an accepted TCP connection under a Proxy with a
non-rack target is dialed directly and relayed.  The code's accept loop
spawns `proxyRackTCP` for every connection (`go proxyRackTCP(cn, target)`),
so the direct target `tcp://127.0.0.1:9000` fails rack-path parsing with
"invalid rack endpoint" and nothing is ever dialed; the unused
`proxyTCPConnection` is the routine that would have dialed it. -/
theorem proxyTCP_direct_target_never_dialed :
    proxyTCPPerConnection (.ok ()) ⟨"tcp", "127.0.0.1:9000", ""⟩
      = ⟨.error (.invalidRackEndpoint "tcp://127.0.0.1:9000"), [.closeConn]⟩
    ∧ TCPAction.dial "127.0.0.1:9000"
        ∉ (proxyTCPPerConnection (.ok ()) ⟨"tcp", "127.0.0.1:9000", ""⟩).actions
    ∧ proxyTCPConnection (.ok ()) ⟨"tcp", "127.0.0.1:9000", ""⟩
      = ⟨.ok (), [.dial "127.0.0.1:9000", .pipe, .closeOther, .closeConn]⟩ := by
  decide

/-- C2: the claim says a `tls` listen scheme serves TCP-forwarding semantics
after TLS wrapping and is not an unsupported scheme.  In the code the first
switch TLS-wraps the listener for `tls`, but the dispatch switch has no
`tls` case, so `Serve` returns the "unknown listener scheme: tls" error;
`http`, `https` and `tcp` are the only schemes that serve. -/
theorem serve_tls_is_unknown_scheme :
    serveDispatch true "tls" = { tlsWrapped := true, outcome := .unknownScheme "tls" }
    ∧ serveDispatch true "http" = { tlsWrapped := false, outcome := .serveHTTP }
    ∧ serveDispatch true "https" = { tlsWrapped := true, outcome := .serveHTTP }
    ∧ serveDispatch true "tcp" = { tlsWrapped := false, outcome := .serveTCP } := by
  decide

/-- C3: backend resolution for services: an empty process list fails with
"no processes available" and opens no tunnel; a non-empty list yields the
process at the index `mrand.Intn(len pss)` returned by the random source
(every index below the length, hence every listed instance, is selectable
— uniform selection given `Intn`'s uniform output) and spawns exactly one
tunnel to it.  Both the HTTP transport dial and the WebSocket `NetDial`
behave identically; each outbound connection runs this body afresh. -/
theorem backend_resolution (service : String) (port : Nat) (rnd : Nat)
    (pss : List ProcessInfo) (h : rnd < pss.length) :
    serviceTransportDial (.ok ()) (.ok []) service port rnd
        = ⟨.error (.noProcessesAvailable service), []⟩
    ∧ serviceTransportDial (.ok ()) (.ok pss) service port rnd
        = ⟨.ok (pss.get ⟨rnd, h⟩).id, [((pss.get ⟨rnd, h⟩).id, port)]⟩
    ∧ wsNetDial (.ok ()) (.ok []) service port rnd
        = ⟨.error (.noProcessesAvailable service), []⟩
    ∧ wsNetDial (.ok ()) (.ok pss) service port rnd
        = ⟨.ok (pss.get ⟨rnd, h⟩).id, [((pss.get ⟨rnd, h⟩).id, port)]⟩ := by
  refine ⟨rfl, ?_, rfl, ?_⟩ <;>
  · simp only [serviceTransportDial, wsNetDial]
    rw [dif_neg (by omega)]
    simp [Nat.mod_eq_of_lt h]

/-- Witness for C3 at a concrete two-process list and random index 1. -/
theorem backend_resolution_witness :
    serviceTransportDial (.ok ()) (.ok [⟨"p1"⟩, ⟨"p2"⟩]) "web" 3000 1
      = ⟨.ok "p2", [("p2", 3000)]⟩ :=
  (backend_resolution "web" 3000 1 [⟨"p1"⟩, ⟨"p2"⟩] (by decide)).2.1

/-- C4 (counterexample): the claim says the parse fails with the
UnknownKind error whenever the kind segment is outside {service, resource}.
At target path `/a/b/c:x` the kind segment `b` is outside that set, yet the
HTTP rack forwarder fails with the `strconv.Atoi` error on the port token
`x` (the Atoi runs before the kind switch), not with the
unknown-proxy-type error. -/
theorem target_parse_kind_counterexample :
    proxyRackHTTPBuild "/a/b/c:x" = .error (.atoiError "x")
    ∧ proxyRackHTTPBuild "/a/b/c:x" ≠ .error (.unknownProxyType "b")
    ∧ ("b" : String) ≠ "service" ∧ ("b" : String) ≠ "resource" := by
  decide

/-- C4 (amended): for both rack forwarders, fewer than 4 `/`-segments fails
with the malformed-path error and at least 4 segments with fewer than 2
`:`-tokens in the 4th fails with the malformed-selector error; a kind
outside {service, resource} fails with the unknown-proxy-type error in the
TCP path (once the rack client constructs) and in the HTTP path provided
the port token parses as an integer — otherwise the HTTP path reports the
port-parse error first.  Failures return bare errors: no partial
descriptor exists (`Except` carries either an error or a handler). -/
theorem target_parse_errors :
    (∀ path, (goSplit path '/').length < 4 →
        proxyRackHTTPBuild path = .error (.invalidRackEndpoint ""))
    ∧ (∀ renv target, (goSplit (URL.path target) '/').length < 4 →
        (proxyRackTCP renv target).result = .error (.invalidRackEndpoint target.render))
    ∧ (∀ path, 4 ≤ (goSplit path '/').length →
        (goSplit ((goSplit path '/').getD 3 "") ':').length < 2 →
        proxyRackHTTPBuild path = .error (.invalidKindEndpoint ((goSplit path '/').getD 2 "")))
    ∧ (∀ renv target, 4 ≤ (goSplit target.path '/').length →
        (goSplit ((goSplit target.path '/').getD 3 "") ':').length < 2 →
        (proxyRackTCP renv target).result
          = .error (.invalidKindEndpoint ((goSplit target.path '/').getD 2 "")))
    ∧ (∀ path pi, 4 ≤ (goSplit path '/').length →
        2 ≤ (goSplit ((goSplit path '/').getD 3 "") ':').length →
        atoi ((goSplit ((goSplit path '/').getD 3 "") ':').getD 1 "") = some pi →
        (goSplit path '/').getD 2 "" ≠ "service" →
        (goSplit path '/').getD 2 "" ≠ "resource" →
        proxyRackHTTPBuild path = .error (.unknownProxyType ((goSplit path '/').getD 2 "")))
    ∧ (∀ target, 4 ≤ (goSplit target.path '/').length →
        2 ≤ (goSplit ((goSplit target.path '/').getD 3 "") ':').length →
        (goSplit target.path '/').getD 2 "" ≠ "service" →
        (goSplit target.path '/').getD 2 "" ≠ "resource" →
        (proxyRackTCP (.ok ()) target).result
          = .error (.unknownProxyType ((goSplit target.path '/').getD 2 ""))) := by
  refine ⟨?_, ?_, ?_, ?_, ?_, ?_⟩
  · intro path hlen
    simp only [proxyRackHTTPBuild]
    rw [if_pos hlen]
  · intro renv target hlen
    simp only [proxyRackTCP]
    rw [if_pos hlen]
  · intro path hlen hsel
    simp only [proxyRackHTTPBuild]
    rw [if_neg (by omega), if_pos hsel]
  · intro renv target hlen hsel
    simp only [proxyRackTCP]
    rw [if_neg (by omega), if_pos hsel]
  · intro path pi hlen hsel hpi hks hkr
    simp only [proxyRackHTTPBuild]
    rw [if_neg (by omega), if_neg (by omega), hpi]
  · intro target hlen hsel hks hkr
    simp only [proxyRackTCP]
    rw [if_neg (by omega), if_neg (by omega)]

/-- Witness for C4 (amended) at a too-short path and at a well-formed path
with an unknown kind and numeric port. -/
theorem target_parse_errors_witness :
    proxyRackHTTPBuild "/x" = .error (.invalidRackEndpoint "")
    ∧ proxyRackHTTPBuild "/a/zkind/c:9" = .error (.unknownProxyType "zkind") :=
  ⟨target_parse_errors.1 "/x" (by decide),
   target_parse_errors.2.2.2.2.1 "/a/zkind/c:9" 9 (by decide) (by decide) (by decide)
     (by decide) (by decide)⟩

/-- C9: the two rack forwarding paths accept disjoint kinds.  On a
well-formed target the TCP forwarder serves exactly kind `resource`
(opening the resource proxy) and fails every other kind — `service`
included — with the unknown-proxy-type error; the HTTP forwarder builds a
handler exactly for kind `service` (given a numeric port) and fails
`resource` with the same error. -/
theorem rack_kind_disjointness :
    (∀ target, 4 ≤ (goSplit target.path '/').length →
        2 ≤ (goSplit ((goSplit target.path '/').getD 3 "") ':').length →
        (goSplit target.path '/').getD 2 "" = "resource" →
        proxyRackTCP (.ok ()) target
          = ⟨.ok (), [.resourceProxy ((goSplit target.path '/').getD 1 "")
                        ((goSplit ((goSplit target.path '/').getD 3 "") ':').getD 0 ""),
                      .stream, .closeConn]⟩)
    ∧ (∀ target, 4 ≤ (goSplit target.path '/').length →
        2 ≤ (goSplit ((goSplit target.path '/').getD 3 "") ':').length →
        (goSplit target.path '/').getD 2 "" ≠ "resource" →
        (proxyRackTCP (.ok ()) target).result
          = .error (.unknownProxyType ((goSplit target.path '/').getD 2 "")))
    ∧ (∀ path pi, 4 ≤ (goSplit path '/').length →
        2 ≤ (goSplit ((goSplit path '/').getD 3 "") ':').length →
        atoi ((goSplit ((goSplit path '/').getD 3 "") ':').getD 1 "") = some pi →
        (goSplit path '/').getD 2 "" = "service" →
        proxyRackHTTPBuild path
          = .ok ⟨(goSplit path '/').getD 1 "",
                 (goSplit ((goSplit path '/').getD 3 "") ':').getD 0 "", pi⟩)
    ∧ (∀ path pi, 4 ≤ (goSplit path '/').length →
        2 ≤ (goSplit ((goSplit path '/').getD 3 "") ':').length →
        atoi ((goSplit ((goSplit path '/').getD 3 "") ':').getD 1 "") = some pi →
        (goSplit path '/').getD 2 "" = "resource" →
        proxyRackHTTPBuild path = .error (.unknownProxyType "resource")) := by
  refine ⟨?_, ?_, ?_, ?_⟩
  · intro target hlen hsel hk
    simp only [proxyRackTCP]
    rw [if_neg (by omega), if_neg (by omega), hk]
    rfl
  · intro target hlen hsel hk
    simp only [proxyRackTCP]
    rw [if_neg (by omega), if_neg (by omega)]
  · intro path pi hlen hsel hpi hk
    simp only [proxyRackHTTPBuild]
    rw [if_neg (by omega), if_neg (by omega), hpi, hk]
    rfl
  · intro path pi hlen hsel hpi hk
    simp only [proxyRackHTTPBuild]
    rw [if_neg (by omega), if_neg (by omega), hpi, hk]
    rfl

/-- Witness for C9 at concrete resource and service targets. -/
theorem rack_kind_disjointness_witness :
    proxyRackTCP (.ok ()) ⟨"tcp", "rack", "/myapp/resource/db:5432"⟩
      = ⟨.ok (), [.resourceProxy "myapp" "db", .stream, .closeConn]⟩
    ∧ (proxyRackTCP (.ok ()) ⟨"tcp", "rack", "/myapp/service/web:3000"⟩).result
      = .error (.unknownProxyType "service")
    ∧ proxyRackHTTPBuild "/myapp/service/web:3000" = .ok ⟨"myapp", "web", 3000⟩
    ∧ proxyRackHTTPBuild "/myapp/resource/db:5432" = .error (.unknownProxyType "resource") :=
  ⟨rack_kind_disjointness.1 ⟨"tcp", "rack", "/myapp/resource/db:5432"⟩
      (by decide) (by decide) (by decide),
   rack_kind_disjointness.2.1 ⟨"tcp", "rack", "/myapp/service/web:3000"⟩
      (by decide) (by decide) (by decide),
   rack_kind_disjointness.2.2.1 "/myapp/service/web:3000" 3000
      (by decide) (by decide) (by decide) (by decide),
   rack_kind_disjointness.2.2.2 "/myapp/resource/db:5432" 5432
      (by decide) (by decide) (by decide) (by decide)⟩

/-- C5: once a proxy is registered on a port, a second `NewProxy` on the
same port under the same endpoint fails with the port-conflict error, the
first proxy is still registered under that port unchanged, and key
uniqueness of the port map is preserved. -/
theorem newProxy_port_conflict (e e1 : Endpoint) (l1 t1 l2 t2 : URL) (p1 : ProxyR) (pi : Nat)
    (hok : e.newProxy l1 t1 = .ok (p1, e1))
    (hpi : atoi l1.port = some pi) (hpi2 : atoi l2.port = some pi) :
    e1.newProxy l2 t2 = .error (.portConflict pi)
    ∧ e1.proxies.lookup pi = some p1
    ∧ ((e.proxies.map Prod.fst).Nodup → (e1.proxies.map Prod.fst).Nodup) := by
  unfold Endpoint.newProxy at hok
  rw [hpi] at hok
  dsimp only at hok
  cases hl : e.proxies.lookup pi with
  | some q => rw [hl] at hok; exact absurd hok (by simp)
  | none =>
    rw [hl] at hok
    simp only [Except.ok.injEq, Prod.mk.injEq] at hok
    obtain ⟨hp1, he1⟩ := hok
    subst hp1
    subst he1
    refine ⟨?_, ?_, ?_⟩
    · unfold Endpoint.newProxy
      rw [hpi2]
      simp [List.lookup]
    · simp [List.lookup]
    · intro hnd
      simp only [List.map, List.nodup_cons]
      exact ⟨lookup_none_not_mem_keys hl, hnd⟩

/-- Witness for C5: two proxies on port 5000 under one endpoint; the second
registration fails with the conflict error. -/
theorem newProxy_port_conflict_witness :
    (Endpoint.mk "h" [(5000, ⟨⟨"tcp", "0.0.0.0:5000", ""⟩, ⟨"tcp", "a", "/x"⟩⟩)]).newProxy
        ⟨"tcp", "0.0.0.0:5000", ""⟩ ⟨"tcp", "b", "/y"⟩
      = .error (.portConflict 5000) :=
  (newProxy_port_conflict (Endpoint.mk "h" [])
    (Endpoint.mk "h" [(5000, ⟨⟨"tcp", "0.0.0.0:5000", ""⟩, ⟨"tcp", "a", "/x"⟩⟩)])
    ⟨"tcp", "0.0.0.0:5000", ""⟩ ⟨"tcp", "a", "/x"⟩
    ⟨"tcp", "0.0.0.0:5000", ""⟩ ⟨"tcp", "b", "/y"⟩
    ⟨⟨"tcp", "0.0.0.0:5000", ""⟩, ⟨"tcp", "a", "/x"⟩⟩ 5000 rfl rfl rfl).1

/-- C6: for any inbound request whose header keys are valid tokens
(arbitrary letter-casing), the outbound WebSocket handshake headers built
by `Proxy.ws` contain no header case-insensitively equal to any of the six
negotiation headers, contain every other inbound header value (under the
canonical key the Go header map gives it), and contain the three
`X-Forwarded-*` headers. -/
theorem ws_negotiation_header_filtering (ra pp pr : List Nat)
    (inbound : List (List Nat × List Nat))
    (hvalid : ∀ kv ∈ inbound, kv.1.all validHeaderByte = true) :
    (∀ kv ∈ wsOutboundHeaders ra pp pr inbound, ∀ n ∈ wsClaimNegotiationNames,
        lowerKey kv.1 ≠ lowerKey n)
    ∧ (∀ kv ∈ inbound, (∀ n ∈ wsClaimNegotiationNames, lowerKey kv.1 ≠ lowerKey n) →
        (canonicalHeaderKey kv.1, kv.2) ∈ wsOutboundHeaders ra pp pr inbound)
    ∧ (hbytes "X-Forwarded-For", ra) ∈ wsOutboundHeaders ra pp pr inbound
    ∧ (hbytes "X-Forwarded-Port", pp) ∈ wsOutboundHeaders ra pp pr inbound
    ∧ (hbytes "X-Forwarded-Proto", pr) ∈ wsOutboundHeaders ra pp pr inbound := by
  have hxf : ∀ n ∈ wsClaimNegotiationNames,
      lowerKey (hbytes "X-Forwarded-For") ≠ lowerKey n ∧
      lowerKey (hbytes "X-Forwarded-Port") ≠ lowerKey n ∧
      lowerKey (hbytes "X-Forwarded-Proto") ≠ lowerKey n := by decide
  have hcanonNames : ∀ n ∈ wsClaimNegotiationNames, canonicalHeaderKey n ∈ wsSkipKeys := by
    decide
  have hskipLower : ∀ s ∈ wsSkipKeys, ∃ n, n ∈ wsClaimNegotiationNames ∧
      lowerKey s = lowerKey n := by decide
  refine ⟨?_, ?_, ?_, ?_, ?_⟩
  · intro kv hkv n hn
    unfold wsOutboundHeaders at hkv
    rcases List.mem_append.1 hkv with hl | hr
    · simp only [List.mem_cons, List.not_mem_nil, or_false] at hl
      rcases hl with rfl | rfl | rfl
      · exact (hxf n hn).1
      · exact (hxf n hn).2.1
      · exact (hxf n hn).2.2
    · rw [List.mem_filter] at hr
      obtain ⟨hmap, hpred⟩ := hr
      rw [List.mem_map] at hmap
      obtain ⟨⟨k, v⟩, hmem, rfl⟩ := hmap
      intro heq
      rw [lowerKey_canonicalHeaderKey] at heq
      have hck : canonicalHeaderKey k = canonicalHeaderKey n :=
        canonicalHeaderKey_congr heq (hvalid _ hmem)
      have hmemSkip : canonicalHeaderKey k ∈ wsSkipKeys := by
        rw [hck]; exact hcanonNames n hn
      have hsk : skipKey (canonicalHeaderKey k) = true := by
        unfold skipKey
        exact List.elem_eq_true_of_mem hmemSkip
      simp [hsk] at hpred
  · intro kv hkv hnone
    unfold wsOutboundHeaders
    apply List.mem_append.2
    right
    rw [List.mem_filter]
    refine ⟨List.mem_map.2 ⟨kv, hkv, rfl⟩, ?_⟩
    rcases hcs : skipKey (canonicalHeaderKey kv.1) with _ | _
    · simp
    · exfalso
      have hmem2 : canonicalHeaderKey kv.1 ∈ wsSkipKeys := by
        unfold skipKey at hcs
        exact List.mem_of_elem_eq_true hcs
      obtain ⟨n, hn, hlow⟩ := hskipLower _ hmem2
      exact hnone n hn (by rw [← lowerKey_canonicalHeaderKey kv.1, hlow])
  · exact List.mem_append_left _ (by simp)
  · exact List.mem_append_left _ (by simp)
  · exact List.mem_append_left _ (by simp)

/-- Witness for C6: with an oddly cased `sEc-WebSocKet-kEy` inbound, the
outbound headers (which drop it, keep `Authorization` and add the
forwarding headers) contain `X-Forwarded-For`. -/
theorem ws_negotiation_header_filtering_witness :
    (hbytes "X-Forwarded-For", hbytes "1.2.3.4")
      ∈ wsOutboundHeaders (hbytes "1.2.3.4") (hbytes "80") (hbytes "http")
          [(hbytes "sEc-WebSocKet-kEy", hbytes "v"), (hbytes "Authorization", hbytes "z")] :=
  (ws_negotiation_header_filtering (hbytes "1.2.3.4") (hbytes "80") (hbytes "http")
    [(hbytes "sEc-WebSocKet-kEy", hbytes "v"), (hbytes "Authorization", hbytes "z")]
    (by decide)).2.2.1

/-- C7: the claim says the pump returns when the first copy direction
finishes AND that every exit path closes both connections.  The first part
holds on both paths, but the WebSocket bridge tail performs no `Close` at
all on either connection; only `proxyTCPConnection`'s deferred closes
release both ends. -/
theorem wsBridge_closes_nothing :
    wsBridgeTail true (some "read error")
      = [.spawnCopy true, .spawnCopy false, .copyDone true, .recvFirst,
         .logError "read error", .returnCall]
    ∧ PumpEvent.closeA ∉ wsBridgeTail true (some "read error")
    ∧ PumpEvent.closeB ∉ wsBridgeTail true (some "read error")
    ∧ PumpEvent.closeA ∉ wsBridgeTail false none
    ∧ PumpEvent.closeB ∉ wsBridgeTail false none
    ∧ tcpConnectionTrace true
      = [.spawnCopy true, .spawnCopy false, .copyDone true, .returnCall, .closeB, .closeA] := by
  decide

/-- C8: `Proxy.MarshalJSON` renders exactly the two-key object with the
`listen` member first (map keys sorted) and the canonical URL strings as
values; at the spec's example proxy the output is byte-exact. -/
theorem marshalJSON_exact :
    (∀ p : ProxyR, p.marshalJSON =
      "\x7b\"listen\":" ++ jsonString p.listen.render ++ ",\"target\":"
        ++ jsonString p.target.render ++ "\x7d")
    ∧ ProxyR.marshalJSON ⟨⟨"tcp", "0.0.0.0:5000", ""⟩, ⟨"tcp", "rack", "/myapp/service/web:3000"⟩⟩
      = "\x7b\"listen\":\"tcp://0.0.0.0:5000\",\"target\":\"tcp://rack/myapp/service/web:3000\"\x7d" := by
  constructor
  · intro p
    show jsonObject _ = _
    have hle : keyLE "listen" "target" = true := by decide
    simp only [jsonObject, sortByKey, List.foldr, insertByKey, hle, if_pos, renderPairs]
    have h1 : jsonString "listen" = "\"listen\"" := by decide
    have h2 : jsonString "target" = "\"target\"" := by decide
    rw [h1, h2]
    apply String.ext
    simp [String.data_append]
  · decide

/-- C10: `Service.BuildHash` depends only on `Build.Path`, `Build.Args` and
`Image`: two services agreeing on those three fields hash identically,
whatever their `Name`, `Environment` and `Test`. -/
theorem buildHash_depends_only_on_build_and_image (s1 s2 : Service)
    (hp : s1.build.path = s2.build.path) (ha : s1.build.args = s2.build.args)
    (hi : s1.image = s2.image) :
    s1.buildHash = s2.buildHash := by
  unfold Service.buildHash Service.buildString
  rw [hp, ha, hi]

/-- Witness for C10: two services differing in name, environment and test
but not in build/image hash the same. -/
theorem buildHash_witness :
    Service.buildHash ⟨"web", ⟨["a"], "p"⟩, ["X=1"], "img", "t1"⟩
      = Service.buildHash ⟨"api", ⟨["a"], "p"⟩, [], "img", "t2"⟩ :=
  buildHash_depends_only_on_build_and_image _ _ rfl rfl rfl

end Praxis
